import Mathlib

/-!
Shallow embedding of the webauthndemo server core:
`src/libs/credential.ts` (Firestore-backed credential repository) and
`src/libs/webauthn.ts` (ceremony orchestration routes and origin resolver).

Firestore is modelled as an association list of documents keyed by document id;
asynchronous calls are sequenced as explicit state passing; a thrown JS string
is an error value.  JS numbers holding counters / epoch times are Nat.
-/

namespace WebauthnDemo

/-! ## Firestore document-store model -/

/-- A Firestore collection: documents keyed by document id. -/
abbrev Collection (α : Type) := List (String × α)

namespace Collection

/-- `collection.doc(id).get()`: the document's data, `none` when the document
is missing (Firestore resolves with `exists = false`; it does not reject). -/
def getDoc {α : Type} (c : Collection α) (id : String) : Option α :=
  (c.find? (fun p => p.1 == id)).map Prod.snd

/-- `collection.doc(id).set(v)`: upsert keyed by document id. -/
def setDoc {α : Type} (c : Collection α) (id : String) (v : α) : Collection α :=
  c.filter (fun p => p.1 != id) ++ [(id, v)]

/-- `collection.doc(id).delete()`. -/
def deleteDoc {α : Type} (c : Collection α) (id : String) : Collection α :=
  c.filter (fun p => p.1 != id)

end Collection

/-! ## JS helpers: truthiness, base64url, hex parsing -/

/-- JS truthiness of a `string | undefined` value: `undefined` and `""` are falsy. -/
def strTruthy : Option String → Bool
  | none => false
  | some s => !(s == "")

/-- JS `String.prototype.split(sep)` for a one-character separator, on
character lists: `"".split(sep)` is `[""]`, separators are not kept. -/
def splitOnChar (sep : Char) : List Char → List (List Char)
  | [] => [[]]
  | c :: rest =>
    let r := splitOnChar sep rest
    if c == sep then [] :: r
    else
      match r with
      | g :: gs => (c :: g) :: gs
      | [] => [[c]]

/-- JS `s.split(sep)` for a one-character separator string. -/
def jsSplit (sep : Char) (s : String) : List String :=
  (splitOnChar sep s.toList).map (fun g => ⟨g⟩)

/-- Whitespace removed by JS `String.prototype.trim` (the ASCII cases; the
configuration values at issue are ASCII). -/
def isJsWhitespace (c : Char) : Bool :=
  c == ' ' || c == '\t' || c == '\n' || c == '\r'

/-- JS `s.trim()`. -/
def jsTrim (s : String) : String :=
  ⟨((s.toList.dropWhile isJsWhitespace).reverse.dropWhile isJsWhitespace).reverse⟩

/-- The base64url alphabet used by the `base64url` npm package. -/
def b64urlAlphabet : String :=
  "ABCDEFGHIJKLMNOPQRSTUVWXYZabcdefghijklmnopqrstuvwxyz0123456789-_"

/-- Character of a 6-bit value. -/
def b64Char (n : Nat) : Char := b64urlAlphabet.toList.getD n 'A'

/-- base64url encoding of a byte sequence, without padding (the `base64url`
package strips `=`).  `Buffer.from` truncates each element to a byte, hence
the `% 256`. -/
def b64EncodeChars : List Nat → List Char
  | [] => []
  | [b1] =>
    let x := b1 % 256
    [b64Char (x / 4), b64Char (x % 4 * 16)]
  | [b1, b2] =>
    let x := b1 % 256
    let y := b2 % 256
    [b64Char (x / 4), b64Char (x % 4 * 16 + y / 16), b64Char (y % 16 * 4)]
  | b1 :: b2 :: b3 :: rest =>
    let x := b1 % 256
    let y := b2 % 256
    let z := b3 % 256
    b64Char (x / 4) :: b64Char (x % 4 * 16 + y / 16) ::
      b64Char (y % 16 * 4 + z / 64) :: b64Char (z % 64) :: b64EncodeChars rest

/-- `base64url.encode(bytes)`. -/
def base64urlEncode (bytes : List Nat) : String := ⟨b64EncodeChars bytes⟩

/-- 6-bit value of a base64url character, `none` for characters outside the
alphabet (node's decoder skips those). -/
def b64Val (c : Char) : Option Nat :=
  b64urlAlphabet.toList.findIdx? (fun x => x == c)

/-- Regroup 6-bit values into bytes; a single leftover value yields no byte,
matching node's lenient base64 decoder. -/
def b64DecodeVals : List Nat → List Nat
  | v1 :: v2 :: v3 :: v4 :: rest =>
    (v1 * 4 + v2 / 16) :: (v2 % 16 * 16 + v3 / 4) :: (v3 % 4 * 64 + v4) :: b64DecodeVals rest
  | [v1, v2, v3] => [v1 * 4 + v2 / 16, v2 % 16 * 16 + v3 / 4]
  | [v1, v2] => [v1 * 4 + v2 / 16]
  | _ => []

/-- `base64url.toBuffer(s)` as a byte list. -/
def base64urlDecode (s : String) : List Nat :=
  b64DecodeVals (s.toList.filterMap b64Val)

def isHexDigit (c : Char) : Bool :=
  c.isDigit || ('a' ≤ c && c ≤ 'f') || ('A' ≤ c && c ≤ 'F')

def hexDigitVal (c : Char) : Nat :=
  if c.isDigit then c.toNat - 48
  else if 'a' ≤ c then c.toNat - 87
  else c.toNat - 55

/-- JS `parseInt(s, 16)` on an already-trimmed string: optional `0x`/`0X`
prefix, then the longest prefix of hex digits; `none` is `NaN`. -/
def parseIntHex (s : String) : Option Nat :=
  let cs := match s.toList with
    | '0' :: 'x' :: rest => rest
    | '0' :: 'X' :: rest => rest
    | cs => cs
  let ds := cs.takeWhile isHexDigit
  if ds.isEmpty then none
  else some (ds.foldl (fun a c => a * 16 + hexDigitVal c) 0)

/-! ## Origin resolver (`getOrigin` in `src/libs/webauthn.ts`) -/

/-- The environment variables the origin resolver consults. -/
structure AndroidConfig where
  androidPackageName : Option String
  androidSha256Hash : Option String
  deriving Repr, DecidableEq

/-- Character class of the source regex `/^[a-zA-z0-9_.]+/`.  Note the source
writes `A-z` (not `A-Z`): the class also contains `[`, `\`, `]`, `^`
and the backtick, code points 91 to 96. -/
def isAppNameChar (c : Char) : Bool :=
  ('a' ≤ c && c ≤ 'z') || ('A' ≤ c && c ≤ 'z') || ('0' ≤ c && c ≤ '9') ||
    c == '_' || c == '.'

/-- `userAgent.match(appRe)`: the leading token, `""` when the regex does not
match. -/
def uaAppToken (ua : String) : String := ⟨ua.toList.takeWhile isAppNameChar⟩

/-- The source's `for` loop over `package_names` with `break` on the first
`appName === package_names[i]`: index of the first name equal to the token. -/
def firstMatchIdx (names : List String) (tok : String) : Option Nat :=
  match names with
  | [] => none
  | n :: ns => if n == tok then some 0 else (firstMatchIdx ns tok).map (fun i => i + 1)

/-- `hashes[i].split(':').map(h => parseInt(h, 16))` followed by
`Buffer.from`'s byte coercion (`NaN` to 0, truncation to a byte). -/
def hashToBytes (hash : String) : List Nat :=
  (jsSplit ':' hash).map (fun h => (parseIntHex h).getD 0 % 256)

/-- `getOrigin(_origin, userAgent)`.  The JS `!userAgent` guard is falsy for
both `undefined` and the empty string.  When the matched token equals a
configured package name at an index past the end of the hash list the source
throws a `TypeError` (`hashes[i]` is `undefined`); the theorems below only
concern configurations with parallel lists, so that case is modelled with the
out-of-range default `""`. -/
def getOrigin (cfg : AndroidConfig) (origin0 : String) (userAgent : Option String) :
    String :=
  match userAgent with
  | none => origin0
  | some ua =>
    if ua = "" then origin0
    else
      let tok := uaAppToken ua
      if tok = "" then origin0
      else if strTruthy cfg.androidPackageName && strTruthy cfg.androidSha256Hash then
        let package_names := (jsSplit ',' (cfg.androidPackageName.getD "")).map jsTrim
        let hashes := (jsSplit ',' (cfg.androidSha256Hash.getD "")).map jsTrim
        match firstMatchIdx package_names tok with
        | some i => "android:apk-key-hash:" ++ base64urlEncode (hashToBytes (hashes.getD i ""))
        | none => origin0
      else origin0

/-- The package-name list the resolver compares against: present only when both
environment variables are truthy (the source computes it under that guard). -/
def configuredPackageNames (cfg : AndroidConfig) : List String :=
  if strTruthy cfg.androidPackageName && strTruthy cfg.androidSha256Hash then
    (jsSplit ',' (cfg.androidPackageName.getD "")).map jsTrim
  else []

/-- The parallel hash list, under the same guard. -/
def configuredHashes (cfg : AndroidConfig) : List String :=
  if strTruthy cfg.androidPackageName && strTruthy cfg.androidSha256Hash then
    (jsSplit ',' (cfg.androidSha256Hash.getD "")).map jsTrim
  else []

/-- The character class the specification claims for the leading token:
`[A-Za-z0-9_.]+`.  Kept separate from `isAppNameChar` so the two token
extractors can be compared. -/
def isSpecAppNameChar (c : Char) : Bool :=
  ('a' ≤ c && c ≤ 'z') || ('A' ≤ c && c ≤ 'Z') || ('0' ≤ c && c ≤ '9') ||
    c == '_' || c == '.'

/-- Leading token under the specification's character class. -/
def specAppToken (ua : String) : String := ⟨ua.toList.takeWhile isSpecAppNameChar⟩

/-! ## Credential repository (`src/libs/credential.ts`) -/

/-- `StoredCredential`.  Optional interface fields are `Option`; `dpks` is only
populated by `getCredentials`. -/
structure StoredCredential where
  user_id : String
  credentialID : String
  credentialPublicKey : String
  counter : Nat
  aaguid : Option String := none
  registered : Option Nat := none
  user_verifying : Bool
  authenticatorAttachment : String
  transports : Option (List String) := none
  browser : Option String := none
  os : Option String := none
  platform : Option String := none
  last_used : Option Nat := none
  clientExtensionResults : Option String := none
  dpks : Option (List String) := none
  deriving Repr, DecidableEq

/-- `StoredDevicePublicKey`. -/
structure StoredDevicePublicKey where
  credentialID : String
  dpk : String
  deriving Repr, DecidableEq

/-- The two Firestore collections the repository uses. -/
structure Firestore where
  credentials : Collection StoredCredential
  dpks : Collection StoredDevicePublicKey
  deriving Repr, DecidableEq

/-- `getDevicePublicKeys(credential_id)`: query `dpks` on `credentialID` and
collect each row's `dpk` field. -/
def getDevicePublicKeys (store : Firestore) (credential_id : String) : List String :=
  (store.dpks.filter (fun p => p.2.credentialID == credential_id)).map (fun p => p.2.dpk)

/-- Insertion step for `orderBy('registered', 'desc')`. -/
def insertByRegisteredDesc (c : StoredCredential) :
    List StoredCredential → List StoredCredential
  | [] => [c]
  | x :: xs =>
    if x.registered.getD 0 ≤ c.registered.getD 0 then c :: x :: xs
    else x :: insertByRegisteredDesc c xs

/-- Sort by `registered` descending (Firestore leaves the tie order to the
backend; this model fixes one). -/
def sortByRegisteredDesc (l : List StoredCredential) : List StoredCredential :=
  l.foldl (fun acc c => insertByRegisteredDesc c acc) []

/-- `getCredentials(user_id)`: query on `user_id` ordered by `registered`
descending (Firestore omits documents lacking the orderBy field), then join in
each credential's device public keys. -/
def getCredentials (store : Firestore) (uid : String) : List StoredCredential :=
  let rows := (store.credentials.filter
    (fun p => p.2.user_id == uid && p.2.registered.isSome)).map Prod.snd
  (sortByRegisteredDesc rows).map
    (fun c => { c with dpks := some (getDevicePublicKeys store c.credentialID) })

/-- `getCredential(credential_id)`: a rejected promise is `.error`; the
function resolves with `doc.data()`, which is `undefined` (here `none`) for a
missing document — no code path rejects. -/
def getCredential (store : Firestore) (credential_id : String) :
    Except String (Option StoredCredential) :=
  Except.ok (store.credentials.getDoc credential_id)

/-- `storeCredential(credential)`: upsert keyed by `credentialID`. -/
def storeCredential (store : Firestore) (credential : StoredCredential) : Firestore :=
  { store with credentials := store.credentials.setDoc credential.credentialID credential }

/-- `removeDevicePublicKey(dpk)`: delete the `dpks` document keyed by the dpk
value. -/
def removeDevicePublicKey (store : Firestore) (dpk : String) : Firestore :=
  { store with dpks := store.dpks.deleteDoc dpk }

/-- `storeDevicePublicKey(devicePublicKey)`: upsert keyed by the dpk value. -/
def storeDevicePublicKey (store : Firestore) (d : StoredDevicePublicKey) : Firestore :=
  { store with dpks := store.dpks.setDoc d.dpk d }

/-- `removeCredential(credential_id)`: enumerate the credential's device public
keys, delete each, then delete the credential document. -/
def removeCredential (store : Firestore) (credential_id : String) : Firestore :=
  let dpkList := getDevicePublicKeys store credential_id
  let store1 := dpkList.foldl (fun st d => removeDevicePublicKey st d) store
  { store1 with credentials := store1.credentials.deleteDoc credential_id }

/-! ## Ceremony orchestrator (`src/libs/webauthn.ts` response routes)

The external verifier (`@simplewebauthn/server`) is an opaque collaborator,
passed in as a function; `getNow()` is the `now` parameter; `req.session`,
`res.locals` and the Firestore state are explicit values. -/

/-- `res.locals.user` (the authenticated principal). -/
structure GoogleUser where
  user_id : String
  name : Option String := none
  displayName : Option String := none
  deriving Repr, DecidableEq

/-- `res.locals`: authenticated user and configured hostname / origin. -/
structure Locals where
  user : Option GoogleUser
  hostname : Option String
  origin : Option String
  deriving Repr, DecidableEq

/-- `req.session`'s ceremony fields (the ChallengeSession). -/
structure SessionData where
  challenge : Option String := none
  timeout : Option Nat := none
  type : Option String := none
  deriving Repr, DecidableEq

/-- `req.useragent` as parsed by the express-useragent middleware. -/
structure UAInfo where
  browser : Option String := none
  os : Option String := none
  platform : Option String := none
  deriving Repr, DecidableEq

/-- `devicePublicKey` extension output; `dpk` may be absent. -/
structure DevicePublicKeyExtension where
  dpk : Option (List Nat)
  deriving Repr, DecidableEq

/-- `authenticatorExtensionResults`. -/
structure AuthenticatorExtensionResults where
  devicePublicKey : Option DevicePublicKeyExtension
  deriving Repr, DecidableEq

/-- `registrationInfo` returned by `verifyRegistrationResponse`. -/
structure RegistrationInfo where
  credentialPublicKey : List Nat
  credentialID : List Nat
  counter : Nat
  userVerified : Bool
  authenticatorExtensionResults : Option AuthenticatorExtensionResults
  deriving Repr, DecidableEq

/-- The full result of `verifyRegistrationResponse`. -/
structure RegVerification where
  verified : Bool
  registrationInfo : Option RegistrationInfo
  deriving Repr, DecidableEq

/-- The fields of the client's `RegistrationCredentialJSON` the handler reads
(the rest is passed opaquely to the verifier and echoed in the response). -/
structure RegistrationCredential where
  transports : Option (List String) := none
  clientExtensionResults : Option String := none
  deriving Repr, DecidableEq

/-- Arguments of `verifyRegistrationResponse`. -/
structure RegVerifyArgs where
  credential : RegistrationCredential
  expectedChallenge : String
  expectedOrigin : String
  expectedRPID : String
  deriving Repr, DecidableEq

/-- The client's `AuthenticationCredentialJSON`; the handler reads `.id`. -/
structure AuthenticationCredential where
  id : String
  deriving Repr, DecidableEq

/-- `AuthenticatorDevice`: the known authenticator state handed to the
verifier. -/
structure AuthenticatorDevice where
  credentialPublicKey : List Nat
  credentialID : List Nat
  counter : Nat
  transports : Option (List String)
  deriving Repr, DecidableEq

/-- Arguments of `verifyAuthenticationResponse`. -/
structure AuthVerifyArgs where
  credential : AuthenticationCredential
  expectedChallenge : String
  expectedOrigin : String
  expectedRPID : String
  authenticator : AuthenticatorDevice
  deriving Repr, DecidableEq

/-- `authenticationInfo` returned by `verifyAuthenticationResponse` (the typed
API always carries it, so the source's later `authenticationInfo &&` guard is
identically true). -/
structure AuthenticationInfo where
  newCounter : Nat
  authenticatorExtensionResults : Option AuthenticatorExtensionResults
  deriving Repr, DecidableEq

/-- The full result of `verifyAuthenticationResponse`. -/
structure AuthVerification where
  verified : Bool
  authenticationInfo : AuthenticationInfo
  deriving Repr, DecidableEq

/-- Outcome of one route invocation: `ok` is `res.json(v)`, `badRequest` is the
`res.status(400)` response built in a `catch` block, `uncaught` is a throw
outside any `try` (express never runs the handler's cleanup then). -/
inductive HandlerResult (α : Type) where
  | ok (v : α)
  | badRequest (error : String)
  | uncaught (error : String)
  deriving Repr, DecidableEq

/-- The parts of the request `/registerResponse` reads. -/
structure RegRequest where
  session : SessionData
  body : RegistrationCredential
  userAgent : Option String := none
  useragent : Option UAInfo := none
  deriving Repr, DecidableEq

/-- The session after `delete req.session.challenge / timeout / type`. -/
def clearedSession : SessionData := { challenge := none, timeout := none, type := none }

/-- The credential object `/registerResponse` persists on success:
`req.session.type || "undefined"` is the JS `||` on a possibly-undefined
string. -/
def builtCredential (u : GoogleUser) (now : Nat) (req : RegRequest)
    (info : RegistrationInfo) : StoredCredential :=
  { user_id := u.user_id
    credentialID := base64urlEncode info.credentialID
    credentialPublicKey := base64urlEncode info.credentialPublicKey
    counter := info.counter
    registered := some now
    user_verifying := info.userVerified
    authenticatorAttachment :=
      if strTruthy req.session.type then req.session.type.getD "" else "undefined"
    browser := req.useragent.bind (fun i => i.browser)
    os := req.useragent.bind (fun i => i.os)
    platform := req.useragent.bind (fun i => i.platform)
    transports := req.body.transports
    clientExtensionResults := req.body.clientExtensionResults }

/-- `/registerResponse`.  The whole body sits in one `try`; every `throw` lands
in the `catch` block, which deletes the three session fields and sends a 400.
Returns (response, final session, final Firestore state). -/
def registerResponse (cfg : AndroidConfig) (locals : Locals) (now : Nat)
    (verify : RegVerifyArgs → RegVerification)
    (req : RegRequest) (store : Firestore) :
    HandlerResult RegistrationCredential × SessionData × Firestore :=
  match locals.user with
  | none => (.badRequest "Unauthorized.", clearedSession, store)
  | some user =>
    if !strTruthy req.session.challenge then
      (.badRequest "No challenge found.", clearedSession, store)
    else if !strTruthy locals.hostname then
      (.badRequest "Hostname not configured.", clearedSession, store)
    else if !strTruthy locals.origin then
      (.badRequest "Origin not configured.", clearedSession, store)
    else
      let expectedChallenge := req.session.challenge.getD ""
      let expectedRPID := locals.hostname.getD ""
      let expectedOrigin := getOrigin cfg (locals.origin.getD "") req.userAgent
      let verification := verify
        { credential := req.body, expectedChallenge := expectedChallenge,
          expectedOrigin := expectedOrigin, expectedRPID := expectedRPID }
      match verification.verified, verification.registrationInfo with
      | true, some info =>
        let cred := builtCredential user now req info
        let store1 := storeCredential store cred
        match info.authenticatorExtensionResults with
        | some ext =>
          match ext.devicePublicKey with
          | some dpkExt =>
            match dpkExt.dpk with
            | none => (.badRequest "DPK data is missing!", clearedSession, store1)
            | some dpkBytes =>
              let store2 := storeDevicePublicKey store1
                { credentialID := cred.credentialID, dpk := base64urlEncode dpkBytes }
              (.ok req.body, clearedSession, store2)
          | none => (.ok req.body, clearedSession, store1)
        | none => (.ok req.body, clearedSession, store1)
      | _, _ => (.badRequest "User verification failed.", clearedSession, store)

/-- The parts of the request `/authResponse` reads. -/
structure AuthRequest where
  session : SessionData
  body : AuthenticationCredential
  userAgent : Option String := none
  deriving Repr, DecidableEq

/-- `/authResponse`'s cleanup deletes only `challenge` and `timeout`; the
`type` field is left as it was. -/
def authClearedSession (s : SessionData) : SessionData :=
  { s with challenge := none, timeout := none }

/-- `/authResponse`.  The `Unauthorized` / hostname / origin checks run before
the `try` block: a throw there is uncaught and no session cleanup happens.
`req.session.challenge || ''` defaults a missing challenge to the empty
string.  On success the handler mutates only the in-memory credential object
fetched by `getCredentials` (counter and `last_used`); it never writes it back
to Firestore. -/
def authResponse (cfg : AndroidConfig) (locals : Locals) (now : Nat)
    (verify : AuthVerifyArgs → AuthVerification)
    (req : AuthRequest) (store : Firestore) :
    HandlerResult StoredCredential × SessionData × Firestore :=
  match locals.user with
  | none => (.uncaught "Unauthorized.", req.session, store)
  | some user =>
    if !strTruthy locals.hostname then
      (.uncaught "Hostname not configured.", req.session, store)
    else if !strTruthy locals.origin then
      (.uncaught "Origin not configured.", req.session, store)
    else
      let expectedChallenge := req.session.challenge.getD ""
      let expectedRPID := locals.hostname.getD ""
      let expectedOrigin := getOrigin cfg (locals.origin.getD "") req.userAgent
      let credentials := getCredentials store user.user_id
      match credentials.find? (fun cred => cred.credentialID == req.body.id) with
      | none =>
        (.badRequest "Authenticating credential not found.",
          authClearedSession req.session, store)
      | some storedCred =>
        let authenticator : AuthenticatorDevice :=
          { credentialPublicKey := base64urlDecode storedCred.credentialPublicKey
            credentialID := base64urlDecode storedCred.credentialID
            counter := storedCred.counter
            transports := storedCred.transports }
        let verification := verify
          { credential := req.body, expectedChallenge := expectedChallenge,
            expectedOrigin := expectedOrigin, expectedRPID := expectedRPID,
            authenticator := authenticator }
        if !verification.verified then
          (.badRequest "User verification failed.", authClearedSession req.session, store)
        else
          let info := verification.authenticationInfo
          let updatedCred :=
            { storedCred with counter := info.newCounter, last_used := some now }
          match info.authenticatorExtensionResults with
          | some ext =>
            match ext.devicePublicKey with
            | some dpkExt =>
              match dpkExt.dpk with
              | none =>
                (.badRequest "DPK data is missing!", authClearedSession req.session, store)
              | some dpkBytes =>
                let storedDpks := getDevicePublicKeys store storedCred.credentialID
                let base64Dpk := base64urlEncode dpkBytes
                if !storedDpks.contains base64Dpk then
                  let store1 := storeDevicePublicKey store
                    { credentialID := storedCred.credentialID, dpk := base64Dpk }
                  (.ok updatedCred, authClearedSession req.session, store1)
                else (.ok updatedCred, authClearedSession req.session, store)
            | none => (.ok updatedCred, authClearedSession req.session, store)
          | none => (.ok updatedCred, authClearedSession req.session, store)

/-! ## Helper lemmas -/

theorem strTruthy_none : strTruthy none = false := rfl

theorem strTruthy_some_of_ne {s : String} (h : s ≠ "") : strTruthy (some s) = true := by
  simp [strTruthy, h]

/-- Every exit path of `/registerResponse` deletes all three session fields. -/
theorem registerResponse_session_eq (cfg : AndroidConfig) (locals : Locals) (now : Nat)
    (verify : RegVerifyArgs → RegVerification) (req : RegRequest) (store : Firestore) :
    (registerResponse cfg locals now verify req store).2.1 = clearedSession := by
  unfold registerResponse
  repeat' first | rfl | split | dsimp only

/-- `/authResponse` deletes `challenge` and `timeout` exactly when the pre-try
checks pass; otherwise the session is untouched. -/
theorem authResponse_session_eq (cfg : AndroidConfig) (locals : Locals) (now : Nat)
    (verify : AuthVerifyArgs → AuthVerification) (req : AuthRequest) (store : Firestore) :
    (authResponse cfg locals now verify req store).2.1 =
      if locals.user.isSome && strTruthy locals.hostname && strTruthy locals.origin then
        authClearedSession req.session
      else req.session := by
  unfold authResponse
  repeat' first | split | dsimp only
  all_goals first | rfl | simp_all

theorem firstMatchIdx_none_of_not_mem {names : List String} {tok : String}
    (h : tok ∉ names) : firstMatchIdx names tok = none := by
  induction names with
  | nil => rfl
  | cons n ns ih =>
    simp only [List.mem_cons, not_or] at h
    simp [firstMatchIdx, ih h.2, beq_iff_eq, Ne.symm h.1]

/-- `getOrigin` on a present user agent, phrased through the guarded
configuration lists. -/
theorem getOrigin_some_eq (cfg : AndroidConfig) (origin0 s : String) :
    getOrigin cfg origin0 (some s) =
      (if s = "" then origin0
       else if uaAppToken s = "" then origin0
       else
         match firstMatchIdx (configuredPackageNames cfg) (uaAppToken s) with
         | some i => "android:apk-key-hash:" ++
             base64urlEncode (hashToBytes ((configuredHashes cfg).getD i ""))
         | none => origin0) := by
  unfold getOrigin configuredPackageNames configuredHashes
  by_cases hs : s = ""
  · simp [hs]
  · simp only [if_neg hs]
    by_cases ht : uaAppToken s = ""
    · simp [ht]
    · simp only [if_neg ht]
      cases hg : (strTruthy cfg.androidPackageName && strTruthy cfg.androidSha256Hash) <;>
        simp [hg, firstMatchIdx]

/-! ## Concrete fixtures used by closed theorems -/

def exCfg : AndroidConfig := ⟨none, none⟩

def exCred : StoredCredential :=
  { user_id := "u1", credentialID := "cid1", credentialPublicKey := "AQ",
    counter := 0, registered := some 10, user_verifying := true,
    authenticatorAttachment := "platform" }

def exStore : Firestore := { credentials := [("cid1", exCred)], dpks := [] }

def exLocals : Locals :=
  ⟨some { user_id := "u1" }, some "example.com", some "https://example.com"⟩

def exAndroidCfg : AndroidConfig := ⟨some "app", some "01"⟩

/-- A verifier stub reporting success with `newCounter = 5`. -/
def exVerifyAuth : AuthVerifyArgs → AuthVerification :=
  fun _ => { verified := true,
             authenticationInfo := { newCounter := 5, authenticatorExtensionResults := none } }

def exAuthReq : AuthRequest :=
  { session := { challenge := some "chal" }, body := { id := "cid1" } }

/-! ## Claims -/

/-- C1: the claim says a verified authentication-response persists the
verifier's `newCounter` and the call time into durable storage.  The code only
mutates the in-memory object returned by `getCredentials` and never writes it
back: at a store whose credential has `sign_count = 0`, with a verifier
reporting `newCounter = 5` at time 99, the handler responds with the updated
object but the Firestore document still holds `counter = 0` and no
`last_used`. -/
theorem authResponse_counter_update_not_persisted :
    (authResponse exCfg exLocals 99 exVerifyAuth exAuthReq exStore).1 =
      .ok { exCred with counter := 5, last_used := some 99, dpks := some [] }
  ∧ (authResponse exCfg exLocals 99 exVerifyAuth exAuthReq exStore).2.2 = exStore
  ∧ exStore.credentials.getDoc "cid1" = some exCred
  ∧ exCred.counter = 0 ∧ exCred.last_used = none := by
  refine ⟨rfl, rfl, rfl, rfl, rfl⟩

/-- C2 counterexample: an authentication-response call without an authenticated
user exits (uncaught, before the `try` block) with the ChallengeSession still
present, contradicting "deleted before the handler returns on every exit
path". -/
theorem authResponse_unauthorized_keeps_session :
    (authResponse exCfg ⟨none, some "example.com", some "https://example.com"⟩ 99
        exVerifyAuth exAuthReq exStore).1 = .uncaught "Unauthorized."
  ∧ (authResponse exCfg ⟨none, some "example.com", some "https://example.com"⟩ 99
        exVerifyAuth exAuthReq exStore).2.1 = exAuthReq.session
  ∧ exAuthReq.session.challenge = some "chal" := by
  refine ⟨rfl, rfl, rfl⟩

/-- C2 (amended): `/registerResponse` deletes the full ChallengeSession
(challenge, timeout, enrollment type) on every exit path.  `/authResponse`
deletes only `challenge` and `timeout` (never the enrollment type), and only on
exits from inside its `try` block; its Unauthorized and Misconfigured checks
run before the `try` and leave the ChallengeSession untouched. -/
theorem ceremony_response_session_release :
    (∀ cfg locals now verify req store,
       (registerResponse cfg locals now verify req store).2.1 = clearedSession)
  ∧ (∀ cfg u h o now verify req store,
       (authResponse cfg ⟨some u, some h, some o⟩ now verify req store).2.1 =
         if strTruthy (some h) && strTruthy (some o) then authClearedSession req.session
         else req.session)
  ∧ (∀ cfg h o now verify req store,
       (authResponse cfg ⟨none, h, o⟩ now verify req store).2.1 = req.session) := by
  refine ⟨fun cfg locals now verify req store =>
      registerResponse_session_eq cfg locals now verify req store,
    fun cfg u h o now verify req store => ?_,
    fun cfg h o now verify req store => ?_⟩
  · simpa using authResponse_session_eq cfg ⟨some u, some h, some o⟩ now verify req store
  · simpa using authResponse_session_eq cfg ⟨none, h, o⟩ now verify req store

/-- C4 counterexample: the source regex `/^[a-zA-z0-9_.]+/` writes `A-z`, so
its class also matches `[`, `\`, `]`, `^` and the backtick.  With package list
`"app"`, hash list `"01"` and user agent `"app^"`, the claim's token (under
`[A-Za-z0-9_.]+`) is `"app"`, equal to the configured package name, so the
claim requires `android:apk-key-hash:AQ`; the code's token is `"app^"`, which
matches nothing, and the declared origin is returned unchanged. -/
theorem getOrigin_spec_regex_mismatch :
    specAppToken "app^" = "app"
  ∧ configuredPackageNames exAndroidCfg = ["app"]
  ∧ configuredHashes exAndroidCfg = ["01"]
  ∧ "android:apk-key-hash:" ++ base64urlEncode (hashToBytes "01") = "android:apk-key-hash:AQ"
  ∧ getOrigin exAndroidCfg "https://example.com" (some "app^") = "https://example.com"
  ∧ ("https://example.com" : String) ≠ "android:apk-key-hash:AQ" := by
  refine ⟨rfl, by decide, by decide, by decide, by decide, by decide⟩

/-- C4 (amended): as the claim states, but the leading token is taken under the
source's character class `[a-zA-z0-9_.]` (the `A-z` range also contains
code points 91 to 96) rather than the claimed `[A-Za-z0-9_.]`:
`getOrigin` returns the declared origin unchanged when no user agent is
supplied, when no leading token matches, or when the token equals no
configured package name; when the token first equals the i-th configured
package name (and the parallel hash list reaches index i), it returns
`android:apk-key-hash:<base64url of the bytes decoded from the i-th
colon-delimited hex hash>`. -/
theorem getOrigin_resolution (cfg : AndroidConfig) (origin0 : String) (ua : Option String) :
    (ua = none → getOrigin cfg origin0 ua = origin0)
  ∧ (∀ s, ua = some s → uaAppToken s = "" → getOrigin cfg origin0 ua = origin0)
  ∧ (∀ s, ua = some s → uaAppToken s ∉ configuredPackageNames cfg →
      getOrigin cfg origin0 ua = origin0)
  ∧ (∀ s i, ua = some s → uaAppToken s ≠ "" →
      firstMatchIdx (configuredPackageNames cfg) (uaAppToken s) = some i →
      i < (configuredHashes cfg).length →
      getOrigin cfg origin0 ua =
        "android:apk-key-hash:" ++
          base64urlEncode (hashToBytes ((configuredHashes cfg).getD i ""))) := by
  refine ⟨?_, ?_, ?_, ?_⟩
  · rintro rfl; rfl
  · rintro s rfl htok
    rw [getOrigin_some_eq]
    by_cases hs : s = ""
    · simp [hs]
    · simp [hs, htok]
  · rintro s rfl hmem
    rw [getOrigin_some_eq, firstMatchIdx_none_of_not_mem hmem]
    by_cases hs : s = ""
    · simp [hs]
    · by_cases ht : uaAppToken s = "" <;> simp [hs, ht]
  · rintro s i rfl htok hidx hlen
    have hs : s ≠ "" := by
      intro h
      subst h
      exact htok rfl
    rw [getOrigin_some_eq, if_neg hs, if_neg htok, hidx]

/-- C4 witness: a recognized native-app user agent with the configured package
name `com.example.app` and hash `AA:BB:CC` resolves to the hash-based
origin. -/
theorem getOrigin_resolution_witness :
    getOrigin ⟨some "com.example.app", some "AA:BB:CC"⟩ "https://example.com"
      (some "com.example.app/2 (Linux; Android 13)") = "android:apk-key-hash:qrvM" := by
  have h := (getOrigin_resolution ⟨some "com.example.app", some "AA:BB:CC"⟩
      "https://example.com" (some "com.example.app/2 (Linux; Android 13)")).2.2.2
      "com.example.app/2 (Linux; Android 13)" 0 rfl (by decide) (by decide) (by decide)
  rw [h]
  decide

/-- C3: whatever the outcome of a first `/registerResponse` call, the challenge
is consumed; a second call on the resulting session (with an authenticated
caller) fails with `No challenge found.` and changes nothing. -/
theorem registerResponse_challenge_single_use
    (cfg1 : AndroidConfig) (L1 : Locals) (now1 : Nat)
    (v1 : RegVerifyArgs → RegVerification) (req1 : RegRequest) (store : Firestore)
    (cfg2 : AndroidConfig) (u2 : GoogleUser) (h2 o2 : Option String) (now2 : Nat)
    (v2 : RegVerifyArgs → RegVerification) (b2 : RegistrationCredential)
    (ua2 : Option String) (uai2 : Option UAInfo) :
    (registerResponse cfg1 L1 now1 v1 req1 store).2.1.challenge = none
  ∧ registerResponse cfg2 ⟨some u2, h2, o2⟩ now2 v2
      { session := (registerResponse cfg1 L1 now1 v1 req1 store).2.1, body := b2,
        userAgent := ua2, useragent := uai2 }
      (registerResponse cfg1 L1 now1 v1 req1 store).2.2
      = (.badRequest "No challenge found.", clearedSession,
         (registerResponse cfg1 L1 now1 v1 req1 store).2.2) := by
  rw [registerResponse_session_eq cfg1 L1 now1 v1 req1 store]
  exact ⟨rfl, rfl⟩

/-- Rows keyed by their own `dpk` value: the invariant `storeDevicePublicKey`
establishes (it uses the dpk as the document id). -/
def WellKeyedDpks (c : Collection StoredDevicePublicKey) : Prop :=
  ∀ p ∈ c, p.1 = p.2.dpk

theorem mem_deleteDoc {α : Type} {c : Collection α} {id : String} {p : String × α} :
    p ∈ c.deleteDoc id ↔ p ∈ c ∧ p.1 ≠ id := by
  simp [Collection.deleteDoc, List.mem_filter]

theorem mem_foldl_deleteDoc {α : Type} (ds : List String) (c : Collection α)
    (p : String × α) :
    p ∈ ds.foldl (fun acc d => acc.deleteDoc d) c ↔ p ∈ c ∧ p.1 ∉ ds := by
  induction ds generalizing c with
  | nil => simp
  | cons d ds ih =>
    simp only [List.foldl_cons, ih, mem_deleteDoc, List.mem_cons, not_or]
    tauto

theorem foldl_remove_dpks (ds : List String) (store : Firestore) :
    (ds.foldl (fun st d => removeDevicePublicKey st d) store).dpks =
      ds.foldl (fun c d => c.deleteDoc d) store.dpks
  ∧ (ds.foldl (fun st d => removeDevicePublicKey st d) store).credentials =
      store.credentials := by
  induction ds generalizing store with
  | nil => exact ⟨rfl, rfl⟩
  | cons d ds ih => simpa using ih (removeDevicePublicKey store d)

theorem mem_getDevicePublicKeys {store : Firestore} {cid x : String} :
    x ∈ getDevicePublicKeys store cid ↔
      ∃ p, p ∈ store.dpks ∧ p.2.credentialID = cid ∧ p.2.dpk = x := by
  simp [getDevicePublicKeys, List.mem_map, List.mem_filter]
  tauto

theorem getDoc_deleteDoc_self {α : Type} (c : Collection α) (id : String) :
    (c.deleteDoc id).getDoc id = none := by
  have h : (c.deleteDoc id).find? (fun p => p.1 == id) = none := by
    rw [List.find?_eq_none]
    intro p hp
    simp only [Collection.deleteDoc, List.mem_filter, bne_iff_ne, ne_eq] at hp
    simp [hp.2]
  simp [Collection.getDoc, h]

/-- C5: deleting a credential first deletes every DevicePublicKey row
referencing it (in the enumerated order) and then the Credential row; after it
completes no DevicePublicKey row references the credential and the credential
document is absent. -/
theorem removeCredential_cascade (store : Firestore) (cid : String)
    (hwk : WellKeyedDpks store.dpks)
    (hN : 1 ≤ (getDevicePublicKeys store cid).length) :
    getDevicePublicKeys (removeCredential store cid) cid = []
  ∧ (removeCredential store cid).credentials.getDoc cid = none := by
  have hdpks : (removeCredential store cid).dpks =
      (getDevicePublicKeys store cid).foldl (fun c d => c.deleteDoc d) store.dpks :=
    (foldl_remove_dpks (getDevicePublicKeys store cid) store).1
  constructor
  · unfold getDevicePublicKeys
    rw [hdpks, List.map_eq_nil_iff, List.filter_eq_nil_iff]
    intro p hp
    rw [mem_foldl_deleteDoc] at hp
    simp only [beq_iff_eq]
    intro hcid
    apply hp.2
    rw [hwk p hp.1]
    rw [mem_getDevicePublicKeys]
    exact ⟨p, hp.1, hcid, rfl⟩
  · exact getDoc_deleteDoc_self _ cid

/-- Store fixture for the cascade-delete witness: credential `cid1` with two
device public keys and an unrelated credential's key. -/
def exStoreDpks : Firestore :=
  { credentials := [("cid1", exCred)],
    dpks := [("d1", ⟨"cid1", "d1"⟩), ("d2", ⟨"cid1", "d2"⟩), ("d3", ⟨"other", "d3"⟩)] }

/-- C5 witness: the cascade on a credential with two device public keys. -/
theorem removeCredential_cascade_witness :
    getDevicePublicKeys (removeCredential exStoreDpks "cid1") "cid1" = []
  ∧ (removeCredential exStoreDpks "cid1").credentials.getDoc "cid1" = none :=
  removeCredential_cascade exStoreDpks "cid1" (by unfold WellKeyedDpks; decide) (by decide)

/-- C6 counterexample: looking up an id absent from the store resolves
successfully with no value (`doc.data()` is `undefined`); it does not fail
with `NotFound` as the claim states. -/
theorem getCredential_absent_returns_ok_none :
    getCredential { credentials := [], dpks := [] } "missing" = Except.ok none := rfl

/-- C6 (amended): for every credential id absent from the store,
`getCredential` resolves successfully with `undefined` (no credential); no
error is raised. -/
theorem getCredential_absent (store : Firestore) (cid : String)
    (h : store.credentials.getDoc cid = none) :
    getCredential store cid = Except.ok none := by
  simp [getCredential, h]

/-- C6 witness: an id absent from a non-empty store. -/
theorem getCredential_absent_witness :
    getCredential exStore "nope" = Except.ok none :=
  getCredential_absent exStore "nope" (by decide)


/-- C7: when the claimed credential id is not among the authenticated user's
own credentials, `/authResponse` fails with `Authenticating credential not
found.`, clears challenge and timeout, and leaves the store unchanged —
regardless of what other users' credentials the store holds. -/
theorem authResponse_credential_not_found
    (cfg : AndroidConfig) (u : GoogleUser) (h o : String) (now : Nat)
    (verify : AuthVerifyArgs → AuthVerification) (req : AuthRequest) (store : Firestore)
    (hh : h ≠ "") (ho : o ≠ "")
    (hnotmem : req.body.id ∉ (getCredentials store u.user_id).map
      (fun c => c.credentialID)) :
    authResponse cfg ⟨some u, some h, some o⟩ now verify req store =
      (.badRequest "Authenticating credential not found.",
       authClearedSession req.session, store) := by
  have hfind : (getCredentials store u.user_id).find?
      (fun cred => cred.credentialID == req.body.id) = none := by
    rw [List.find?_eq_none]
    intro c hc
    simp only [beq_iff_eq]
    intro he
    exact hnotmem (List.mem_map.mpr ⟨c, hc, he⟩)
  unfold authResponse
  simp [strTruthy_some_of_ne hh, strTruthy_some_of_ne ho, hfind]

def exStoreOther : Firestore :=
  { credentials := [("cidX", { exCred with user_id := "other", credentialID := "cidX" })],
    dpks := [] }

/-- C7 witness: `cidX` exists but belongs to user `other`; authenticated `u1`
cannot authenticate with it. -/
theorem authResponse_credential_not_found_witness :
    authResponse exCfg ⟨some { user_id := "u1" }, some "example.com",
        some "https://example.com"⟩ 99 exVerifyAuth
        { session := { challenge := some "chal" }, body := { id := "cidX" } } exStoreOther =
      (.badRequest "Authenticating credential not found.",
       authClearedSession { challenge := some "chal" }, exStoreOther) :=
  authResponse_credential_not_found exCfg { user_id := "u1" } "example.com"
    "https://example.com" 99 exVerifyAuth
    { session := { challenge := some "chal" }, body := { id := "cidX" } } exStoreOther
    (by decide) (by decide) (by decide)

/-- No branch of `/authResponse` produces the `No challenge found.` error. -/
theorem authResponse_never_no_challenge
    (cfg : AndroidConfig) (locals : Locals) (now : Nat)
    (verify : AuthVerifyArgs → AuthVerification) (req : AuthRequest) (store : Firestore) :
    ((authResponse cfg locals now verify req store).1 ≠ .badRequest "No challenge found.")
  ∧ ((authResponse cfg locals now verify req store).1 ≠ .uncaught "No challenge found.") := by
  unfold authResponse
  repeat' first | split | dsimp only
  all_goals refine ⟨by first | decide | simp, by first | decide | simp⟩

/-- C8: with no stored challenge, `/authResponse` does not fail `NoChallenge`:
it behaves exactly as if the verifier were called with `""` as the expected
challenge, and the outcome is whatever that verifier call decides. -/
theorem authResponse_missing_challenge_uses_empty_string
    (cfg : AndroidConfig) (locals : Locals) (now : Nat)
    (verify : AuthVerifyArgs → AuthVerification)
    (b : AuthenticationCredential) (tmo : Option Nat) (typ : Option String)
    (ua : Option String) (store : Firestore) :
    ((authResponse cfg locals now verify
        { session := { challenge := none, timeout := tmo, type := typ },
          body := b, userAgent := ua } store).1 ≠ .badRequest "No challenge found.")
  ∧ ((authResponse cfg locals now verify
        { session := { challenge := none, timeout := tmo, type := typ },
          body := b, userAgent := ua } store).1 ≠ .uncaught "No challenge found.")
  ∧ authResponse cfg locals now verify
      { session := { challenge := none, timeout := tmo, type := typ },
        body := b, userAgent := ua } store =
    authResponse cfg locals now (fun a => verify { a with expectedChallenge := "" })
      { session := { challenge := none, timeout := tmo, type := typ },
        body := b, userAgent := ua } store := by
  refine ⟨(authResponse_never_no_challenge cfg locals now verify _ store).1,
    (authResponse_never_no_challenge cfg locals now verify _ store).2, ?_⟩
  rfl



theorem mem_setDoc {α : Type} {c : Collection α} {id : String} {v : α} {p : String × α} :
    p ∈ c.setDoc id v ↔ (p ∈ c ∧ p.1 ≠ id) ∨ p = (id, v) := by
  simp [Collection.setDoc, List.mem_filter, List.mem_append, bne_iff_ne]

theorem keys_inj {α : Type} {l : Collection α} (h : (l.map Prod.fst).Nodup)
    {p q : String × α} (hp : p ∈ l) (hq : q ∈ l) (he : p.1 = q.1) : p = q :=
  List.inj_on_of_nodup_map h hp hq he

theorem nodup_keys_setDoc {α : Type} {c : Collection α}
    (h : (c.map Prod.fst).Nodup) (id : String) (v : α) :
    ((c.setDoc id v).map Prod.fst).Nodup := by
  unfold Collection.setDoc
  rw [List.map_append, List.nodup_append]
  refine ⟨List.Nodup.sublist ((List.filter_sublist c).map Prod.fst) h, by simp, ?_⟩
  intro k hk
  simp only [List.mem_map, List.mem_filter, bne_iff_ne, ne_eq] at hk
  obtain ⟨p, ⟨hp, hne⟩, rfl⟩ := hk
  simp [hne]

theorem nodup_keys_deleteDoc {α : Type} {c : Collection α}
    (h : (c.map Prod.fst).Nodup) (id : String) :
    ((c.deleteDoc id).map Prod.fst).Nodup :=
  List.Nodup.sublist ((List.filter_sublist c).map Prod.fst) h

/-- C10: the `dpks` collection is keyed by the dpk value itself, so each dpk
belongs to at most one credential: storing `(c2, d)` while `d` is on file for
`c1` reassigns it (it appears under `c2` and no longer under `c1`); the
device-public-key sets of distinct credentials are pairwise disjoint; and both
writers preserve the keyed-by-dpk invariant and key uniqueness. -/
theorem device_public_key_unique_owner (store : Firestore) (c1 c2 d : String)
    (hwk : WellKeyedDpks store.dpks)
    (hnd : (store.dpks.map Prod.fst).Nodup)
    (hne : c1 ≠ c2)
    (hcur : d ∈ getDevicePublicKeys store c1) :
    d ∈ getDevicePublicKeys (storeDevicePublicKey store ⟨c2, d⟩) c2
  ∧ d ∉ getDevicePublicKeys (storeDevicePublicKey store ⟨c2, d⟩) c1
  ∧ (∀ x, x ∈ getDevicePublicKeys store c1 → x ∉ getDevicePublicKeys store c2)
  ∧ WellKeyedDpks (storeDevicePublicKey store ⟨c2, d⟩).dpks
  ∧ ((storeDevicePublicKey store ⟨c2, d⟩).dpks.map Prod.fst).Nodup
  ∧ (∀ e, WellKeyedDpks (removeDevicePublicKey store e).dpks
        ∧ ((removeDevicePublicKey store e).dpks.map Prod.fst).Nodup) := by
  have hsd : (storeDevicePublicKey store ⟨c2, d⟩).dpks = store.dpks.setDoc d ⟨c2, d⟩ := rfl
  refine ⟨?_, ?_, ?_, ?_, ?_, ?_⟩
  · rw [mem_getDevicePublicKeys, hsd]
    exact ⟨(d, ⟨c2, d⟩), by rw [mem_setDoc]; simp, rfl, rfl⟩
  · rw [mem_getDevicePublicKeys, hsd]
    rintro ⟨p, hp, hcid, hdpk⟩
    rw [mem_setDoc] at hp
    rcases hp with ⟨hp, hkey⟩ | rfl
    · exact hkey ((hwk p hp).trans hdpk)
    · exact hne (hcid.symm)
  · intro x hx1 hx2
    rw [mem_getDevicePublicKeys] at hx1 hx2
    obtain ⟨p, hp, hpc, hpd⟩ := hx1
    obtain ⟨q, hq, hqc, hqd⟩ := hx2
    have : p = q := keys_inj hnd hp hq (((hwk p hp).trans hpd).trans
      (((hwk q hq).trans hqd).symm))
    rw [this, hqc] at hpc
    exact hne hpc.symm
  · intro p hp
    rw [hsd, mem_setDoc] at hp
    rcases hp with ⟨hp, _⟩ | rfl
    · exact hwk p hp
    · rfl
  · rw [hsd]
    exact nodup_keys_setDoc hnd d ⟨c2, d⟩
  · intro e
    constructor
    · intro p hp
      rw [show (removeDevicePublicKey store e).dpks = store.dpks.deleteDoc e from rfl,
        mem_deleteDoc] at hp
      exact hwk p hp.1
    · exact nodup_keys_deleteDoc hnd e

/-- C10 witness: `d1`, on file for `c1`, is reassigned by storing it for
`c2`. -/
theorem device_public_key_unique_owner_witness :
    "d1" ∈ getDevicePublicKeys
      (storeDevicePublicKey ⟨[], [("d1", ⟨"c1", "d1"⟩)]⟩ ⟨"c2", "d1"⟩) "c2"
  ∧ "d1" ∉ getDevicePublicKeys
      (storeDevicePublicKey ⟨[], [("d1", ⟨"c1", "d1"⟩)]⟩ ⟨"c2", "d1"⟩) "c1" :=
  ⟨(device_public_key_unique_owner ⟨[], [("d1", ⟨"c1", "d1"⟩)]⟩ "c1" "c2" "d1"
      (by unfold WellKeyedDpks; decide) (by decide) (by decide) (by decide)).1,
   (device_public_key_unique_owner ⟨[], [("d1", ⟨"c1", "d1"⟩)]⟩ "c1" "c2" "d1"
      (by unfold WellKeyedDpks; decide) (by decide) (by decide) (by decide)).2.1⟩



theorem getDoc_setDoc_self {α : Type} (c : Collection α) (id : String) (v : α) :
    (c.setDoc id v).getDoc id = some v := by
  unfold Collection.getDoc Collection.setDoc
  rw [List.find?_append]
  have h : (c.filter (fun p => p.1 != id)).find? (fun p => p.1 == id) = none := by
    rw [List.find?_eq_none]
    intro p hp
    simp only [List.mem_filter, bne_iff_ne, ne_eq] at hp
    simp [hp.2]
  simp [h]

/-- C9: on a verified registration whose device-public-key extension lacks the
key payload, the handler has already persisted the new credential before it
throws `DPK data is missing!`; the stored credential is not rolled back. -/
theorem registerResponse_dpk_missing_after_store
    (cfg : AndroidConfig) (u : GoogleUser) (h o ch : String) (now : Nat)
    (verify : RegVerifyArgs → RegVerification)
    (b : RegistrationCredential) (tmo : Option Nat) (typ : Option String)
    (uaH : Option String) (uai : Option UAInfo) (store : Firestore)
    (info : RegistrationInfo)
    (hch : ch ≠ "") (hh : h ≠ "") (ho : o ≠ "")
    (hv : verify { credential := b, expectedChallenge := ch,
                   expectedOrigin := getOrigin cfg o uaH, expectedRPID := h } =
          { verified := true, registrationInfo := some info })
    (hext : info.authenticatorExtensionResults =
            some { devicePublicKey := some { dpk := none } }) :
    registerResponse cfg ⟨some u, some h, some o⟩ now verify
        { session := { challenge := some ch, timeout := tmo, type := typ },
          body := b, userAgent := uaH, useragent := uai } store =
      (.badRequest "DPK data is missing!", clearedSession,
       storeCredential store (builtCredential u now
         { session := { challenge := some ch, timeout := tmo, type := typ },
           body := b, userAgent := uaH, useragent := uai } info))
  ∧ (storeCredential store (builtCredential u now
       { session := { challenge := some ch, timeout := tmo, type := typ },
         body := b, userAgent := uaH, useragent := uai } info)).credentials.getDoc
      (base64urlEncode info.credentialID) =
    some (builtCredential u now
      { session := { challenge := some ch, timeout := tmo, type := typ },
        body := b, userAgent := uaH, useragent := uai } info) := by
  constructor
  · unfold registerResponse
    simp only [strTruthy_some_of_ne hch, strTruthy_some_of_ne hh, strTruthy_some_of_ne ho,
      Bool.not_true, Bool.false_eq_true, if_false]
    simp only [Option.getD_some]
    rw [hv]
    simp [hext]
  · exact getDoc_setDoc_self _ _ _

/-- A verified registration result whose device-public-key extension lacks the
key payload. -/
def exRegInfoDpkMissing : RegistrationInfo :=
  { credentialPublicKey := [1], credentialID := [9], counter := 0,
    userVerified := true,
    authenticatorExtensionResults := some { devicePublicKey := some { dpk := none } } }

/-- A verifier stub for the C9 witness. -/
def exVerifyRegDpkMissing : RegVerifyArgs → RegVerification :=
  fun _ => { verified := true, registrationInfo := some exRegInfoDpkMissing }

/-- C9 witness: the concrete run stores the credential and then fails. -/
theorem registerResponse_dpk_missing_after_store_witness :
    registerResponse exCfg ⟨some { user_id := "u1" }, some "example.com",
        some "https://example.com"⟩ 50 exVerifyRegDpkMissing
        { session := { challenge := some "chal", timeout := some 7, type := some "platform" },
          body := {} } exStore =
      (.badRequest "DPK data is missing!", clearedSession,
       storeCredential exStore (builtCredential { user_id := "u1" } 50
         { session := { challenge := some "chal", timeout := some 7, type := some "platform" },
           body := {} } exRegInfoDpkMissing)) :=
  (registerResponse_dpk_missing_after_store exCfg { user_id := "u1" } "example.com"
    "https://example.com" "chal" 50 exVerifyRegDpkMissing {} (some 7) (some "platform")
    none none exStore exRegInfoDpkMissing
    (by decide) (by decide) (by decide) rfl rfl).1


/-- C8 witness: a concrete missing-challenge call equals the same call with the
verifier fed the empty expected challenge. -/
theorem authResponse_missing_challenge_witness :
    authResponse exCfg exLocals 99 exVerifyAuth
        { session := { challenge := none, timeout := none, type := none },
          body := { id := "cid1" }, userAgent := none } exStore =
      authResponse exCfg exLocals 99
        (fun a => exVerifyAuth { a with expectedChallenge := "" })
        { session := { challenge := none, timeout := none, type := none },
          body := { id := "cid1" }, userAgent := none } exStore :=
  (authResponse_missing_challenge_uses_empty_string exCfg exLocals 99 exVerifyAuth
    { id := "cid1" } none none none exStore).2.2

end WebauthnDemo
